import Mathlib

/-!
# Verification of the Octoplus Caffe Nero claim reconciler

A shallow embedding of the reconciliation Lambda (`src/lambda.ts`) together
with the pure API helpers it calls (`src/index.ts`) and the state-timing
arithmetic (`getNextSundayMidnight` from the DynamoDB state service).

Remote calls, the state store and the email transport are modelled by an
`Env` oracle fixing the outcome of each external interaction; the handler is
translated into a pure function from that oracle to a `RunResult` holding

* the ordered trace of observable effects (loyalty-API calls, state writes,
  email attempts),
* the HTTP-shaped response (`statusCode` plus the JSON body fields the code
  actually sets), and
* the content of the state store after the run.

Timestamps are Unix milliseconds as `Nat` (`Date.now()` is non-negative).
-/

/-- Persisted per-account row (shape written by `buildState` /
`markSentAndEmail` in `src/lambda.ts` and stored via `saveState`). -/
structure AccountState where
  accountNumber : String
  voucherCode : String
  barcode : String
  expiresAt : Nat
  claimedAt : Nat
  emailSent : Bool
  ttl : Nat
deriving Repr, DecidableEq

/-- Voucher data passed around the handler (`VoucherInfo` in
`src/src/types.ts`); `expiresAt` is the parsed timestamp when present. -/
structure VoucherInfo where
  code : String
  barcode : String
  expiresAt : Option Nat
  accountNumber : String
deriving Repr, DecidableEq

/-- Result of `checkCaffeNeroOffer` (`src/index.ts`). -/
structure OfferStatus where
  found : Bool
  canClaim : Bool
  cannotClaimReason : Option String
deriving Repr, DecidableEq

/-- One voucher inside a claimed reward, as returned by the
`getAllClaimedOffers` query. -/
structure ClaimedVoucher where
  code : String
  barcodeValue : String
  expiresAt : Option Nat
deriving Repr, DecidableEq

/-- One claimed reward (offer slug plus its voucher list). -/
structure OctoplusReward where
  slug : String
  vouchers : List ClaimedVoucher
deriving Repr, DecidableEq

/-- Credentials resolved from SSM (`AccountCredentials` restricted to the
fields the reconciler reads). -/
structure Credentials where
  accountNumber : String
  emails : List String
deriving Repr, DecidableEq

/-- Oracle fixing the outcome of every external interaction of one run:
whether each remote call / store operation / email send succeeds, and the
data the successful calls return. -/
structure Env where
  credsOk : Bool
  creds : Credentials
  getStateOk : Bool
  existingState : Option AccountState
  now : Nat
  offerOk : Bool
  offer : OfferStatus
  claimOk : Bool
  fetchOk : Bool
  rewards : List OctoplusReward
  saveOk : Bool
  emailOk : Bool
deriving Repr, DecidableEq

/-- Observable effects of a run, in execution order.  `saveState` and
`sendEmail` carry whether the operation succeeded; a failed email send is
followed by the `logEmailFailure` effect (the `console.error` in the catch
block of `markSentAndEmail`). -/
inductive Effect where
  | remoteCheckOffer : Effect
  | remoteClaim : Effect
  | remoteFetchVouchers : Effect
  | saveState : AccountState → Bool → Effect
  | sendEmail : List String → VoucherInfo → Bool → Effect
  | logEmailFailure : Effect
deriving Repr, DecidableEq

/-- JSON body fields set by the various `respond` calls in `src/lambda.ts`. -/
structure ResponseBody where
  success : Bool
  action : Option String := none
  reason : Option String := none
  accountNumber : Option String := none
  voucherCode : Option String := none
  emailSent : Option Bool := none
  error : Option String := none
deriving Repr, DecidableEq

/-- HTTP-shaped Lambda response. -/
structure LambdaResponse where
  statusCode : Nat
  body : ResponseBody
deriving Repr, DecidableEq

/-- Full observable result of one run. -/
structure RunResult where
  trace : List Effect
  response : LambdaResponse
  store : Option AccountState
deriving Repr, DecidableEq

/-- Milliseconds per UTC day. -/
def msPerDay : Nat := 86400000

/-- `getNextSundayMidnight` from the state service: next Sunday 00:00:00 UTC
strictly after `fromMs`; a timestamp exactly on Sunday midnight yields the
following Sunday.  Unix day 0 was a Thursday, so the UTC weekday of a
timestamp is `(days + 4) % 7` with Sunday = 0. -/
def getNextSundayMidnight (fromMs : Nat) : Nat :=
  let dayIndex := fromMs / msPerDay
  let day := (dayIndex + 4) % 7
  let daysUntilSunday := if day = 0 then 7 else 7 - day
  (dayIndex + daysUntilSunday) * msPerDay

/-- `buildState` from `src/lambda.ts`: fresh row for a newly obtained
voucher; `emailSent` starts `false`, expiry is the next Sunday midnight and
the housekeeping `ttl` is 30 days ahead in seconds. -/
def buildState (now : Nat) (accountNumber : String) (voucher : VoucherInfo) :
    AccountState :=
  { accountNumber := accountNumber
    voucherCode := voucher.code
    barcode := voucher.barcode
    expiresAt := getNextSundayMidnight now
    claimedAt := now
    emailSent := false
    ttl := now / 1000 + 30 * 24 * 60 * 60 }

/-- The `find` over `octoplusRewards` for the `caffe-nero` slug followed by
the `vouchers[0]` access shared by `claimCaffeNero` and
`fetchLatestCaffeNeroVoucher` (`src/index.ts`). -/
def findCaffeNeroVoucher (rewards : List OctoplusReward) :
    Option ClaimedVoucher :=
  match rewards.find? (fun r => r.slug == "caffe-nero") with
  | none => none
  | some reward => reward.vouchers.head?

/-- Conversion of a fetched `ClaimedVoucher` into the `VoucherInfo` shape
built at both call sites in `src/index.ts`. -/
def vouchersToInfo (accountNumber : String) (v : ClaimedVoucher) :
    VoucherInfo :=
  { code := v.code
    barcode := v.barcodeValue
    expiresAt := v.expiresAt
    accountNumber := accountNumber }

/-- `claimCaffeNero` (`src/index.ts`): claim mutation, then fetch the claimed
rewards and extract the first voucher for the slug; a missing reward or empty
voucher list throws the dedicated error message.  Returns the attempted
remote effects together with the thrown-or-returned result. -/
def claimCaffeNero (env : Env) (accountNumber : String) :
    List Effect × Except String VoucherInfo :=
  if env.claimOk = false then
    ([Effect.remoteClaim], Except.error "RemoteError: claim mutation failed")
  else if env.fetchOk = false then
    ([Effect.remoteClaim, Effect.remoteFetchVouchers],
      Except.error "RemoteError: fetching claimed offers failed")
  else
    match findCaffeNeroVoucher env.rewards with
    | none =>
        ([Effect.remoteClaim, Effect.remoteFetchVouchers],
          Except.error "Claimed successfully but could not retrieve voucher details")
    | some v =>
        ([Effect.remoteClaim, Effect.remoteFetchVouchers],
          Except.ok (vouchersToInfo accountNumber v))

/-- `fetchLatestCaffeNeroVoucher` (`src/index.ts`): fetch the claimed rewards
and return the first voucher for the slug, or `none`. -/
def fetchLatestCaffeNeroVoucher (env : Env) (accountNumber : String) :
    List Effect × Except String (Option VoucherInfo) :=
  if env.fetchOk = false then
    ([Effect.remoteFetchVouchers],
      Except.error "RemoteError: fetching claimed offers failed")
  else
    match findCaffeNeroVoucher env.rewards with
    | none => ([Effect.remoteFetchVouchers], Except.ok none)
    | some v =>
        ([Effect.remoteFetchVouchers],
          Except.ok (some (vouchersToInfo accountNumber v)))

/-- `markSentAndEmail` (`src/lambda.ts`): set `emailSent := true`, persist,
then attempt the email send; an email failure is caught and logged, a save
failure propagates as an exception before any send is attempted. -/
def markSentAndEmail (env : Env) (emails : List String)
    (voucher : VoucherInfo) (state : AccountState) :
    List Effect × Except String AccountState :=
  let updated := { state with emailSent := true }
  if env.saveOk then
    if env.emailOk then
      ([Effect.saveState updated true, Effect.sendEmail emails voucher true],
        Except.ok updated)
    else
      ([Effect.saveState updated true, Effect.sendEmail emails voucher false,
        Effect.logEmailFailure],
        Except.ok updated)
  else
    ([Effect.saveState updated false],
      Except.error "Failed to save account state")

/-- `markSentNoEmail` (`src/lambda.ts`): set `emailSent := true` and persist
when no recipients are configured. -/
def markSentNoEmail (env : Env) (state : AccountState) :
    List Effect × Except String AccountState :=
  let updated := { state with emailSent := true }
  if env.saveOk then
    ([Effect.saveState updated true], Except.ok updated)
  else
    ([Effect.saveState updated false],
      Except.error "Failed to save account state")

/-- The `credentials.emails.length > 0` dispatch between `markSentAndEmail`
and `markSentNoEmail` repeated at each success path of the handler. -/
def runMark (env : Env) (voucher : VoucherInfo) (state : AccountState) :
    List Effect × Except String AccountState :=
  if env.creds.emails.length > 0 then
    markSentAndEmail env env.creds.emails voucher state
  else
    markSentNoEmail env state

/-- The 500 response built in the handler's top-level catch block. -/
def errResponse (eventAccountNumber msg : String) : LambdaResponse :=
  { statusCode := 500
    body := { success := false
              accountNumber := some eventAccountNumber
              error := some msg } }

/-- The OUT_OF_STOCK / MAX_CLAIMS_PER_PERIOD_REACHED recovery branch of the
handler (`src/lambda.ts` lines 214-277). -/
def recoveryPhase (env : Env) (eventAccountNumber acct reason : String) :
    RunResult :=
  let fv := fetchLatestCaffeNeroVoucher env acct
  match fv.2 with
  | Except.error msg =>
      { trace := Effect.remoteCheckOffer :: fv.1
        response := errResponse eventAccountNumber msg
        store := env.existingState }
  | Except.ok none =>
      if reason = "OUT_OF_STOCK" then
        { trace := Effect.remoteCheckOffer :: fv.1
          response := { statusCode := 200
                        body := { success := false
                                  action := some "out_of_stock"
                                  accountNumber := some acct } }
          store := env.existingState }
      else
        { trace := Effect.remoteCheckOffer :: fv.1
          response := { statusCode := 200
                        body := { success := false
                                  action := some "max_claims_no_voucher"
                                  accountNumber := some acct } }
          store := env.existingState }
  | Except.ok (some fetchedVoucher) =>
      let voucherExpiresAt := fetchedVoucher.expiresAt.getD 0
      if voucherExpiresAt ≤ env.now then
        if reason = "OUT_OF_STOCK" then
          { trace := Effect.remoteCheckOffer :: fv.1
            response := { statusCode := 200
                          body := { success := false
                                    action := some "out_of_stock"
                                    accountNumber := some acct } }
            store := env.existingState }
        else
          { trace := Effect.remoteCheckOffer :: fv.1
            response := { statusCode := 200
                          body := { success := false
                                    action := some "voucher_expired"
                                    accountNumber := some acct } }
            store := env.existingState }
      else
        let st := buildState env.now acct fetchedVoucher
        let mk := runMark env fetchedVoucher st
        match mk.2 with
        | Except.error msg =>
            { trace := Effect.remoteCheckOffer :: (fv.1 ++ mk.1)
              response := errResponse eventAccountNumber msg
              store := env.existingState }
        | Except.ok updated =>
            { trace := Effect.remoteCheckOffer :: (fv.1 ++ mk.1)
              response := { statusCode := 200
                            body := { success := true
                                      action := some "recovered_existing"
                                      accountNumber := some acct
                                      voucherCode := some fetchedVoucher.code
                                      emailSent := some updated.emailSent } }
              store := some updated }

/-- Step 3 of the handler: offer lookup, fresh claim, or dispatch to the
recovery branch / unknown-reason terminal. -/
def claimPhase (env : Env) (eventAccountNumber acct : String) : RunResult :=
  if env.offerOk = false then
    { trace := [Effect.remoteCheckOffer]
      response := errResponse eventAccountNumber "RemoteError: offer query failed"
      store := env.existingState }
  else if env.offer.found = false then
    { trace := [Effect.remoteCheckOffer]
      response := { statusCode := 200
                    body := { success := false
                              action := some "offer_not_found"
                              accountNumber := some acct } }
      store := env.existingState }
  else if env.offer.canClaim then
    let cl := claimCaffeNero env acct
    match cl.2 with
    | Except.error msg =>
        { trace := Effect.remoteCheckOffer :: cl.1
          response := errResponse eventAccountNumber msg
          store := env.existingState }
    | Except.ok voucher =>
        let st := buildState env.now acct voucher
        let mk := runMark env voucher st
        match mk.2 with
        | Except.error msg =>
            { trace := Effect.remoteCheckOffer :: (cl.1 ++ mk.1)
              response := errResponse eventAccountNumber msg
              store := env.existingState }
        | Except.ok updated =>
            { trace := Effect.remoteCheckOffer :: (cl.1 ++ mk.1)
              response := { statusCode := 200
                            body := { success := true
                                      action := some "claimed"
                                      accountNumber := some acct
                                      voucherCode := some voucher.code
                                      emailSent := some updated.emailSent } }
              store := some updated }
  else
    let reason := env.offer.cannotClaimReason.getD "UNKNOWN"
    if reason = "OUT_OF_STOCK" ∨ reason = "MAX_CLAIMS_PER_PERIOD_REACHED" then
      recoveryPhase env eventAccountNumber acct reason
    else
      { trace := [Effect.remoteCheckOffer]
        response := { statusCode := 200
                      body := { success := false
                                action := some "cannot_claim"
                                reason := some reason
                                accountNumber := some acct } }
        store := env.existingState }

/-- The Lambda `handler` (`src/lambda.ts`): event validation, credential
resolution, the skip / pending-email decision on the stored state, and the
claim phase.  Thrown errors surface through the top-level catch as the 500
`errResponse`. -/
def handler (env : Env) (eventAccountNumber : String) : RunResult :=
  if eventAccountNumber = "" then
    { trace := []
      response := errResponse eventAccountNumber
        "Missing accountNumber in event payload"
      store := env.existingState }
  else if env.credsOk = false then
    { trace := []
      response := errResponse eventAccountNumber
        "ConfigurationError: could not resolve credentials"
      store := env.existingState }
  else
    let acct := env.creds.accountNumber
    if env.getStateOk = false then
      { trace := []
        response := errResponse eventAccountNumber
          "Failed to fetch account state"
        store := env.existingState }
    else
      match env.existingState with
      | some existing =>
          if env.now < existing.expiresAt then
            if existing.emailSent then
              { trace := []
                response := { statusCode := 200
                              body := { success := true
                                        action := some "none"
                                        reason := some "Valid voucher exists and email already sent"
                                        accountNumber := some acct
                                        voucherCode := some existing.voucherCode } }
                store := env.existingState }
            else
              let voucher : VoucherInfo :=
                { code := existing.voucherCode
                  barcode := existing.barcode
                  expiresAt := none
                  accountNumber := acct }
              let mk := runMark env voucher existing
              match mk.2 with
              | Except.error msg =>
                  { trace := mk.1
                    response := errResponse eventAccountNumber msg
                    store := env.existingState }
              | Except.ok updated =>
                  { trace := mk.1
                    response := { statusCode := 200
                                  body := { success := true
                                            action := some "email_sent"
                                            accountNumber := some acct
                                            voucherCode := some existing.voucherCode } }
                    store := some updated }
          else
            claimPhase env eventAccountNumber acct
      | none => claimPhase env eventAccountNumber acct

/-- The stored record does not force a skip: it is absent or already expired
(the negation of the `existingState && existingState.expiresAt > now`
guard). -/
def stateStale (env : Env) : Bool :=
  match env.existingState with
  | none => true
  | some st => st.expiresAt ≤ env.now

/-- Trace check: scanning left to right, every email-send attempt must be
preceded by a successful state write whose row has `emailSent = true`. -/
def saveBeforeSend (seen : Bool) : List Effect → Bool
  | [] => true
  | Effect.saveState st ok :: rest =>
      saveBeforeSend (seen || (ok && st.emailSent)) rest
  | Effect.sendEmail _ _ _ :: rest => seen && saveBeforeSend seen rest
  | _ :: rest => saveBeforeSend seen rest

/-- `t` is some Sunday 00:00:00.000 UTC (Unix day 0 was a Thursday). -/
def isSundayMidnight (t : Nat) : Prop :=
  t % msPerDay = 0 ∧ (t / msPerDay + 4) % 7 = 0


/-- Final value of the `saveBeforeSend` accumulator after scanning a trace:
true once a successful write of a row with `emailSent = true` has been
seen. -/
def seenAfter (seen : Bool) : List Effect → Bool
  | [] => seen
  | Effect.saveState st ok :: rest => seenAfter (seen || (ok && st.emailSent)) rest
  | _ :: rest => seenAfter seen rest

/-! ## Concrete witness data -/

/-- Credentials with one configured recipient. -/
def credsA : Credentials :=
  { accountNumber := "A-11111111", emails := ["one@example.com"] }

/-- A stored row with a live voucher and the email already sent. -/
def stSkip : AccountState :=
  { accountNumber := "A-11111111", voucherCode := "CN-1", barcode := "111"
    expiresAt := 1000, claimedAt := 0, emailSent := true, ttl := 0 }

/-- Oracle for a run that skips: live emailed voucher in the store. -/
def envSkip : Env :=
  { credsOk := true, creds := credsA, getStateOk := true
    existingState := some stSkip, now := 500
    offerOk := true
    offer := { found := true, canClaim := false, cannotClaimReason := none }
    claimOk := true, fetchOk := true, rewards := []
    saveOk := true, emailOk := true }

/-- The single claimed reward returned by the voucher-list query in the
witness runs. -/
def rewardsA : List OctoplusReward :=
  [{ slug := "caffe-nero"
     vouchers := [{ code := "ABC123", barcodeValue := "999888777"
                    expiresAt := some 600000000 }] }]

/-- Oracle for a fully successful fresh-claim run: no stored state, offer
claimable, every external interaction succeeds. -/
def envOk : Env :=
  { credsOk := true, creds := credsA, getStateOk := true
    existingState := none, now := 0
    offerOk := true
    offer := { found := true, canClaim := true, cannotClaimReason := none }
    claimOk := true, fetchOk := true, rewards := rewardsA
    saveOk := true, emailOk := true }

/-- The row persisted by the `envOk` run. -/
def stOk : AccountState :=
  { accountNumber := "A-11111111", voucherCode := "ABC123"
    barcode := "999888777", expiresAt := 259200000, claimedAt := 0
    emailSent := true, ttl := 2592000 }

/-- Oracle for a claim run where the post-claim voucher fetch is empty. -/
def envNoVoucher : Env :=
  { envOk with rewards := [] }

/-- Offer refusal with reason MAX_CLAIMS_PER_PERIOD_REACHED. -/
def offerMax : OfferStatus :=
  { found := true, canClaim := false
    cannotClaimReason := some "MAX_CLAIMS_PER_PERIOD_REACHED" }

/-- Oracle for a recovery run that fetches an already-expired voucher. -/
def envRecoveryExpired : Env :=
  { envOk with
    offer := offerMax
    rewards := [{ slug := "caffe-nero"
                  vouchers := [{ code := "OLD9", barcodeValue := "888"
                                 expiresAt := some 5 }] }]
    now := 10 }

/-- Oracle for a recovery run whose fetched voucher has no expiry field. -/
def envRecoveryNoExpiry : Env :=
  { envOk with
    offer := offerMax
    rewards := [{ slug := "caffe-nero"
                  vouchers := [{ code := "OLD9", barcodeValue := "888"
                                 expiresAt := none }] }] }

/-! ## Helper lemmas -/

/-- Skip behaviour: with resolvable credentials, a readable state store, a
stored row that has not expired and whose email was already sent, the run
performs no effects and answers 200 / `none`. -/
theorem handler_skip (env : Env) (ev : String) (st : AccountState)
    (hev : ¬ ev = "") (hc : env.credsOk = true) (hg : env.getStateOk = true)
    (hs : env.existingState = some st) (hx : env.now < st.expiresAt)
    (he : st.emailSent = true) :
    handler env ev =
      { trace := []
        response := { statusCode := 200
                      body := { success := true
                                action := some "none"
                                reason := some "Valid voucher exists and email already sent"
                                accountNumber := some env.creds.accountNumber
                                voucherCode := some st.voucherCode } }
        store := env.existingState } := by
  unfold handler
  rw [hs]
  simp [hev, hc, hg, hx, he]

/-- Whenever one of the mark-sent helpers returns normally, the row it
returned (and persisted) has `emailSent = true`. -/
theorem runMark_ok_emailSent (env : Env) (v : VoucherInfo)
    (st u : AccountState) :
    (runMark env v st).2 = Except.ok u → u.emailSent = true := by
  unfold runMark markSentAndEmail markSentNoEmail
  repeat' split
  all_goals intro h
  all_goals (try (simp_all; done))
  all_goals (injection h with h2; exact h2 ▸ rfl)

/-- A run that reports action `claimed` happened on a non-empty event and
left in the store a row with `emailSent = true`. -/
theorem claimed_run_store (env : Env) (ev : String) :
    (handler env ev).response.body.action = some "claimed" →
    ¬ ev = "" ∧ ∃ u, (handler env ev).store = some u ∧ u.emailSent = true := by
  obtain ⟨r, hr⟩ : ∃ r, handler env ev = r := ⟨_, rfl⟩
  rw [hr]
  simp only [handler] at hr
  repeat' split at hr
  all_goals (try (subst hr; intro h; simp_all [errResponse]; done))
  all_goals try simp only [claimPhase] at hr
  all_goals repeat' split at hr
  all_goals (try (subst hr; intro h; simp_all [errResponse]; done))
  all_goals try simp only [recoveryPhase] at hr
  all_goals repeat' split at hr
  all_goals (try (subst hr; intro h; simp_all [errResponse]; done))
  all_goals (subst hr; intro h; simp_all [errResponse])
  all_goals exact runMark_ok_emailSent _ _ _ _ (by assumption)

/-! ## C1 -/

/-- C1: with a stored row that has `expiresAt` strictly in the future and
`emailSent = true`, a run makes no loyalty-API calls and no state writes
(empty effect trace), returns 200 with `success = true` and action `none`,
and leaves the store untouched. -/
theorem c1_valid_emailed_state_skips (env : Env) (ev : String)
    (st : AccountState) (hev : ¬ ev = "") (hc : env.credsOk = true)
    (hg : env.getStateOk = true) (hs : env.existingState = some st)
    (hx : env.now < st.expiresAt) (he : st.emailSent = true) :
    (handler env ev).trace = [] ∧
    (handler env ev).response.statusCode = 200 ∧
    (handler env ev).response.body.success = true ∧
    (handler env ev).response.body.action = some "none" ∧
    (handler env ev).store = env.existingState := by
  rw [handler_skip env ev st hev hc hg hs hx he]
  exact ⟨rfl, rfl, rfl, rfl, rfl⟩

/-- Witness for C1 at a concrete oracle. -/
theorem c1_valid_emailed_state_skips_witness :
    (¬ "A-1" = "" ∧ envSkip.credsOk = true ∧ envSkip.getStateOk = true ∧
      envSkip.existingState = some stSkip ∧
      envSkip.now < stSkip.expiresAt ∧ stSkip.emailSent = true) ∧
    ((handler envSkip "A-1").trace = [] ∧
      (handler envSkip "A-1").response.statusCode = 200 ∧
      (handler envSkip "A-1").response.body.success = true ∧
      (handler envSkip "A-1").response.body.action = some "none" ∧
      (handler envSkip "A-1").store = envSkip.existingState) :=
  ⟨⟨by decide, rfl, rfl, rfl, by decide, rfl⟩,
    c1_valid_emailed_state_skips envSkip "A-1" stSkip (by decide) rfl rfl rfl
      (by decide) rfl⟩

/-! ## C2 -/

/-- C2: if one run reports `claimed`, then a second run on the persisted
state, before that state's `expiresAt`, with credentials and state store
working, reports 200 / `success = true` / action `none` (Skip). -/
theorem c2_claim_then_skip (env1 env2 : Env) (ev : String)
    (st : AccountState)
    (h1 : (handler env1 ev).response.body.action = some "claimed")
    (hstore : (handler env1 ev).store = some st)
    (h2s : env2.existingState = some st)
    (h2g : env2.getStateOk = true) (h2c : env2.credsOk = true)
    (h2n : env2.now < st.expiresAt) :
    (handler env2 ev).response.statusCode = 200 ∧
    (handler env2 ev).response.body.success = true ∧
    (handler env2 ev).response.body.action = some "none" := by
  obtain ⟨hev, u, hu, hmail⟩ := claimed_run_store env1 ev h1
  rw [hstore] at hu
  obtain rfl : st = u := Option.some.injEq _ _ ▸ hu
  rw [handler_skip env2 ev st hev h2c h2g h2s h2n hmail]
  exact ⟨rfl, rfl, rfl⟩

/-- Witness for C2: the `envOk` fresh-claim run followed by a run on the
state it persisted. -/
theorem c2_claim_then_skip_witness :
    ((handler envOk "A-1").response.body.action = some "claimed" ∧
      (handler envOk "A-1").store = some stOk ∧
      ({ envOk with existingState := some stOk, now := 1000 } : Env).now <
        stOk.expiresAt) ∧
    ((handler { envOk with existingState := some stOk, now := 1000 }
        "A-1").response.body.success = true ∧
      (handler { envOk with existingState := some stOk, now := 1000 }
        "A-1").response.body.action = some "none") :=
  ⟨⟨by decide, by decide, by decide⟩,
    let h := c2_claim_then_skip envOk
      { envOk with existingState := some stOk, now := 1000 } "A-1" stOk
      (by decide) (by decide) rfl rfl rfl (by decide)
    ⟨h.2.1, h.2.2⟩⟩

/-! ## Trace lemmas -/

/-- `saveBeforeSend` distributes over list append through the `seenAfter`
accumulator. -/
theorem saveBeforeSend_append (l1 l2 : List Effect) (seen : Bool) :
    saveBeforeSend seen (l1 ++ l2) =
      (saveBeforeSend seen l1 && saveBeforeSend (seenAfter seen l1) l2) := by
  induction l1 generalizing seen with
  | nil => simp [saveBeforeSend, seenAfter]
  | cons e rest ih =>
      cases e <;> simp [saveBeforeSend, seenAfter, ih, Bool.and_assoc]

/-- The claim helper's trace holds only remote-call effects, so the
send-after-save check passes over it. -/
theorem claimCaffeNero_trace_sbs (env : Env) (a : String) (seen : Bool) :
    saveBeforeSend seen (claimCaffeNero env a).1 = true := by
  unfold claimCaffeNero
  repeat' split
  all_goals simp [saveBeforeSend]

/-- The claim helper's trace leaves the `seenAfter` accumulator unchanged. -/
theorem claimCaffeNero_seenAfter (env : Env) (a : String) (seen : Bool) :
    seenAfter seen (claimCaffeNero env a).1 = seen := by
  unfold claimCaffeNero
  repeat' split
  all_goals simp [seenAfter]

/-- The voucher-fetch helper's trace holds only remote-call effects. -/
theorem fetchLatest_trace_sbs (env : Env) (a : String) (seen : Bool) :
    saveBeforeSend seen (fetchLatestCaffeNeroVoucher env a).1 = true := by
  unfold fetchLatestCaffeNeroVoucher
  repeat' split
  all_goals simp [saveBeforeSend]

/-- The voucher-fetch helper's trace leaves the accumulator unchanged. -/
theorem fetchLatest_seenAfter (env : Env) (a : String) (seen : Bool) :
    seenAfter seen (fetchLatestCaffeNeroVoucher env a).1 = seen := by
  unfold fetchLatestCaffeNeroVoucher
  repeat' split
  all_goals simp [seenAfter]

/-- Inside the mark-sent helpers every send attempt follows the successful
write of the `emailSent = true` row. -/
theorem runMark_trace_sbs (env : Env) (v : VoucherInfo) (st : AccountState)
    (seen : Bool) :
    saveBeforeSend seen (runMark env v st).1 = true := by
  unfold runMark markSentAndEmail markSentNoEmail
  repeat' split
  all_goals simp [saveBeforeSend]

/-- The claim helper performs no state writes. -/
theorem claimCaffeNero_no_save (env : Env) (a : String) (st : AccountState)
    (ok : Bool) :
    ¬ Effect.saveState st ok ∈ (claimCaffeNero env a).1 := by
  unfold claimCaffeNero
  repeat' split
  all_goals simp

/-- The voucher-fetch helper performs no state writes. -/
theorem fetchLatest_no_save (env : Env) (a : String) (st : AccountState)
    (ok : Bool) :
    ¬ Effect.saveState st ok ∈ (fetchLatestCaffeNeroVoucher env a).1 := by
  unfold fetchLatestCaffeNeroVoucher
  repeat' split
  all_goals simp

/-- Every row the mark-sent helpers hand to the state store has
`emailSent = true`. -/
theorem runMark_mem_save (env : Env) (v : VoucherInfo) (s st : AccountState)
    (ok : Bool) :
    Effect.saveState st ok ∈ (runMark env v s).1 → st.emailSent = true := by
  unfold runMark markSentAndEmail markSentNoEmail
  repeat' split
  all_goals intro h
  all_goals simp_all

/-- Every state write in any run persists a row with `emailSent = true`. -/
theorem handler_save_emailSent (env : Env) (ev : String) (st : AccountState)
    (ok : Bool) :
    Effect.saveState st ok ∈ (handler env ev).trace → st.emailSent = true := by
  obtain ⟨r, hr⟩ : ∃ r, handler env ev = r := ⟨_, rfl⟩
  rw [hr]
  simp only [handler] at hr
  repeat' split at hr
  all_goals (try (subst hr; intro h; simp_all; done))
  all_goals try simp only [claimPhase] at hr
  all_goals repeat' split at hr
  all_goals (try (subst hr; intro h; simp_all; done))
  all_goals try simp only [recoveryPhase] at hr
  all_goals repeat' split at hr
  all_goals (try (subst hr; intro h; simp_all; done))
  all_goals (subst hr; intro h; simp_all [claimCaffeNero_no_save, fetchLatest_no_save])
  all_goals exact runMark_mem_save _ _ _ _ _ (by assumption)

/-! ## C3 -/

/-- C3: on every run, any email-send attempt in the effect trace is strictly
preceded by a successful state write whose persisted row already has
`emailSent = true` (state is persisted before the notification attempt on
every path, in particular on all success paths). -/
theorem c3_save_precedes_send (env : Env) (ev : String) :
    saveBeforeSend false (handler env ev).trace = true := by
  obtain ⟨r, hr⟩ : ∃ r, handler env ev = r := ⟨_, rfl⟩
  rw [hr]
  simp only [handler] at hr
  repeat' split at hr
  all_goals (try (subst hr; simp [saveBeforeSend, saveBeforeSend_append, seenAfter, claimCaffeNero_trace_sbs, claimCaffeNero_seenAfter, fetchLatest_trace_sbs, fetchLatest_seenAfter, runMark_trace_sbs]; done))
  all_goals try simp only [claimPhase] at hr
  all_goals repeat' split at hr
  all_goals (try (subst hr; simp [saveBeforeSend, saveBeforeSend_append, seenAfter, claimCaffeNero_trace_sbs, claimCaffeNero_seenAfter, fetchLatest_trace_sbs, fetchLatest_seenAfter, runMark_trace_sbs]; done))
  all_goals try simp only [recoveryPhase] at hr
  all_goals repeat' split at hr
  all_goals (subst hr; simp [saveBeforeSend, saveBeforeSend_append, seenAfter, claimCaffeNero_trace_sbs, claimCaffeNero_seenAfter, fetchLatest_trace_sbs, fetchLatest_seenAfter, runMark_trace_sbs])

/-! ## C9 -/

/-- C9: every `AccountState` row the handler ever hands to the state store
has `emailSent = true`; the `emailSent = false` row built by `buildState` is
never written directly, so a stored `emailSent` flag never regresses to
`false`. -/
theorem c9_saved_rows_emailSent (env : Env) (ev : String)
    (st : AccountState) (ok : Bool)
    (h : Effect.saveState st ok ∈ (handler env ev).trace) :
    st.emailSent = true :=
  handler_save_emailSent env ev st ok h

/-- Witness for C9: the fresh-claim run writes exactly the `stOk` row. -/
theorem c9_saved_rows_emailSent_witness :
    Effect.saveState stOk true ∈ (handler envOk "A-1").trace ∧
    stOk.emailSent = true :=
  ⟨by decide, c9_saved_rows_emailSent envOk "A-1" stOk true (by decide)⟩

/-! ## Result characterizations -/

/-- The mark-sent helpers' returned result depends only on whether the state
write succeeds; in particular it never depends on the email outcome. -/
theorem runMark_snd (env : Env) (v : VoucherInfo) (s : AccountState) :
    (runMark env v s).2 =
      if env.saveOk then Except.ok { s with emailSent := true }
      else Except.error "Failed to save account state" := by
  unfold runMark markSentAndEmail markSentNoEmail
  repeat' split
  all_goals simp_all

/-- Result of the claim helper as a function of the oracle. -/
theorem claimCaffeNero_snd (env : Env) (a : String) :
    (claimCaffeNero env a).2 =
      (if env.claimOk = false then
        Except.error "RemoteError: claim mutation failed"
      else if env.fetchOk = false then
        Except.error "RemoteError: fetching claimed offers failed"
      else
        match findCaffeNeroVoucher env.rewards with
        | none =>
            Except.error "Claimed successfully but could not retrieve voucher details"
        | some v => Except.ok (vouchersToInfo a v)) := by
  unfold claimCaffeNero
  repeat' split
  all_goals simp_all

/-- Result of the voucher-fetch helper as a function of the oracle. -/
theorem fetchLatest_snd (env : Env) (a : String) :
    (fetchLatestCaffeNeroVoucher env a).2 =
      (if env.fetchOk = false then
        Except.error "RemoteError: fetching claimed offers failed"
      else
        match findCaffeNeroVoucher env.rewards with
        | none => Except.ok none
        | some v => Except.ok (some (vouchersToInfo a v))) := by
  unfold fetchLatestCaffeNeroVoucher
  repeat' split
  all_goals simp_all

set_option maxHeartbeats 1000000 in
/-- Toggling only the email-send outcome never changes the response or the
resulting store content of a run. -/
theorem handler_emailOk_irrelevant (env : Env) (ev : String) (b1 b2 : Bool) :
    (handler { env with emailOk := b1 } ev).response =
      (handler { env with emailOk := b2 } ev).response ∧
    (handler { env with emailOk := b1 } ev).store =
      (handler { env with emailOk := b2 } ev).store := by
  obtain ⟨cO, cr, gO, exS, now, oO, off, clO, fO, rws, sO, eO⟩ := env
  refine ⟨?_, ?_⟩
  all_goals simp only [handler, runMark_snd]
  all_goals try dsimp only
  all_goals repeat' (first | rfl | split | dsimp only)
  all_goals try simp only [claimPhase, runMark_snd, claimCaffeNero_snd]
  all_goals try dsimp only
  all_goals repeat' (first | rfl | split | dsimp only)
  all_goals try simp only [recoveryPhase, runMark_snd, fetchLatest_snd]
  all_goals try dsimp only
  all_goals repeat' (first | rfl | split | dsimp only)

/-- The claim helper attempts no email sends. -/
theorem claimCaffeNero_no_send (env : Env) (a : String) (es : List String)
    (v : VoucherInfo) (b : Bool) :
    ¬ Effect.sendEmail es v b ∈ (claimCaffeNero env a).1 := by
  unfold claimCaffeNero
  repeat' split
  all_goals simp

/-- The voucher-fetch helper attempts no email sends. -/
theorem fetchLatest_no_send (env : Env) (a : String) (es : List String)
    (v : VoucherInfo) (b : Bool) :
    ¬ Effect.sendEmail es v b ∈ (fetchLatestCaffeNeroVoucher env a).1 := by
  unfold fetchLatestCaffeNeroVoucher
  repeat' split
  all_goals simp

/-- Inside the mark-sent helpers a failed email send is always followed by
the logging effect of the catch block. -/
theorem runMark_send_false_log (env : Env) (v : VoucherInfo)
    (s : AccountState) (es : List String) (vv : VoucherInfo) :
    Effect.sendEmail es vv false ∈ (runMark env v s).1 →
      Effect.logEmailFailure ∈ (runMark env v s).1 := by
  unfold runMark markSentAndEmail markSentNoEmail
  repeat' split
  all_goals intro h
  all_goals simp_all

/-- In every run, a failed email send is logged. -/
theorem handler_send_failed_logged (env : Env) (ev : String)
    (es : List String) (v : VoucherInfo) :
    Effect.sendEmail es v false ∈ (handler env ev).trace →
      Effect.logEmailFailure ∈ (handler env ev).trace := by
  obtain ⟨r, hr⟩ : ∃ r, handler env ev = r := ⟨_, rfl⟩
  rw [hr]
  simp only [handler] at hr
  repeat' split at hr
  all_goals (try (subst hr; intro h; simp_all; done))
  all_goals try simp only [claimPhase] at hr
  all_goals repeat' split at hr
  all_goals (try (subst hr; intro h; simp_all; done))
  all_goals try simp only [recoveryPhase] at hr
  all_goals repeat' split at hr
  all_goals (try (subst hr; intro h; simp_all; done))
  all_goals (subst hr; intro h; simp_all [claimCaffeNero_no_send, fetchLatest_no_send])
  all_goals (first
    | exact runMark_send_false_log _ _ _ _ _ (by assumption)
    | exact Or.inr (runMark_send_false_log _ _ _ _ _ (by assumption)))

/-! ## C4 -/

/-- C4: when the notification send fails, the failure is absorbed: the
response (status code and body, hence the terminal outcome) and the final
store content are identical to the run where the send succeeds, the failure
is logged, and every row persisted in the failing run still carries
`emailSent = true`. -/
theorem c4_email_failure_preserves_outcome (env : Env) (ev : String) :
    (handler { env with emailOk := false } ev).response =
      (handler { env with emailOk := true } ev).response ∧
    (handler { env with emailOk := false } ev).store =
      (handler { env with emailOk := true } ev).store ∧
    (∀ es v, Effect.sendEmail es v false ∈
        (handler { env with emailOk := false } ev).trace →
      Effect.logEmailFailure ∈ (handler { env with emailOk := false } ev).trace) ∧
    (∀ st ok, Effect.saveState st ok ∈
        (handler { env with emailOk := false } ev).trace →
      st.emailSent = true) :=
  ⟨(handler_emailOk_irrelevant env ev false true).1,
    (handler_emailOk_irrelevant env ev false true).2,
    fun es v h => handler_send_failed_logged _ _ es v h,
    fun st ok h => handler_save_emailSent _ _ st ok h⟩

/-- Witness for C4: the fresh-claim run with a failing send attempts the
send, logs the failure, and answers exactly as the succeeding run. -/
theorem c4_email_failure_preserves_outcome_witness :
    (Effect.sendEmail ["one@example.com"]
        { code := "ABC123", barcode := "999888777"
          expiresAt := some 600000000, accountNumber := "A-11111111" } false ∈
      (handler { envOk with emailOk := false } "A-1").trace) ∧
    (Effect.logEmailFailure ∈
      (handler { envOk with emailOk := false } "A-1").trace) ∧
    (handler { envOk with emailOk := false } "A-1").response =
      (handler { envOk with emailOk := true } "A-1").response :=
  ⟨by decide,
    (c4_email_failure_preserves_outcome envOk "A-1").2.2.1
      ["one@example.com"]
      { code := "ABC123", barcode := "999888777"
        expiresAt := some 600000000, accountNumber := "A-11111111" }
      (by decide),
    (c4_email_failure_preserves_outcome envOk "A-1").1⟩

/-! ## Stale-state runs -/

/-- When the stored record is absent or expired, the run proceeds to the
claim phase. -/
theorem handler_stale (env : Env) (ev : String) (hev : ¬ ev = "")
    (hc : env.credsOk = true) (hg : env.getStateOk = true)
    (hstale : stateStale env = true) :
    handler env ev = claimPhase env ev env.creds.accountNumber := by
  unfold handler
  rcases hx : env.existingState with _ | st
  · simp [hev, hc, hg]
  · simp only [stateStale, hx, decide_eq_true_eq] at hstale
    simp [hev, hc, hg, Nat.not_lt.mpr hstale]

/-! ## C5 -/

/-- C5: on a stale-state run where the offer is claimable, the claim
mutation succeeds and the follow-up voucher fetch yields no voucher for the
slug, the run terminates as a handled error: response 500 with
`success = false` and the dedicated message, only the three remote calls in
the trace (so no state write and no email), and an unchanged store. -/
theorem c5_claim_without_voucher_is_error (env : Env) (ev : String)
    (hev : ¬ ev = "") (hc : env.credsOk = true) (hg : env.getStateOk = true)
    (hstale : stateStale env = true) (ho : env.offerOk = true)
    (hf : env.offer.found = true) (hcc : env.offer.canClaim = true)
    (hclaim : env.claimOk = true) (hfetch : env.fetchOk = true)
    (hnone : findCaffeNeroVoucher env.rewards = none) :
    (handler env ev).response.statusCode = 500 ∧
    (handler env ev).response.body.success = false ∧
    (handler env ev).response.body.error =
      some "Claimed successfully but could not retrieve voucher details" ∧
    (handler env ev).trace =
      [Effect.remoteCheckOffer, Effect.remoteClaim,
        Effect.remoteFetchVouchers] ∧
    (handler env ev).store = env.existingState := by
  rw [handler_stale env ev hev hc hg hstale]
  unfold claimPhase claimCaffeNero
  simp [ho, hf, hcc, hclaim, hfetch, hnone, errResponse]

/-- Witness for C5 at a concrete oracle with an empty reward list. -/
theorem c5_claim_without_voucher_is_error_witness :
    (¬ "A-1" = "" ∧ stateStale envNoVoucher = true ∧
      envNoVoucher.offer.canClaim = true ∧ envNoVoucher.claimOk = true ∧
      findCaffeNeroVoucher envNoVoucher.rewards = none) ∧
    ((handler envNoVoucher "A-1").response.statusCode = 500 ∧
      (handler envNoVoucher "A-1").response.body.success = false ∧
      (handler envNoVoucher "A-1").response.body.error =
        some "Claimed successfully but could not retrieve voucher details") :=
  ⟨⟨by decide, by decide, by decide, by decide, by decide⟩,
    let h := c5_claim_without_voucher_is_error envNoVoucher "A-1" (by decide)
      rfl rfl (by decide) rfl rfl rfl rfl rfl (by decide)
    ⟨h.1, h.2.1, h.2.2.1⟩⟩

/-! ## C6 -/

/-- C6: on a stale-state run refused with reason OUT_OF_STOCK or
MAX_CLAIMS_PER_PERIOD_REACHED, a recovered voucher whose expiry is at or
before the current time is discarded: the trace holds only the two remote
calls (no state write, no email attempt), the store is unchanged, and the
outcome is 200 / `success = false` with action `out_of_stock` for
OUT_OF_STOCK and `voucher_expired` for MAX_CLAIMS_PER_PERIOD_REACHED. -/
theorem c6_expired_recovery_discarded (env : Env) (ev r : String)
    (cv : ClaimedVoucher)
    (hev : ¬ ev = "") (hc : env.credsOk = true) (hg : env.getStateOk = true)
    (hstale : stateStale env = true) (ho : env.offerOk = true)
    (hf : env.offer.found = true) (hcc : env.offer.canClaim = false)
    (hr : env.offer.cannotClaimReason = some r)
    (hror : r = "OUT_OF_STOCK" ∨ r = "MAX_CLAIMS_PER_PERIOD_REACHED")
    (hfetch : env.fetchOk = true)
    (hfound : findCaffeNeroVoucher env.rewards = some cv)
    (hexp : cv.expiresAt.getD 0 ≤ env.now) :
    (handler env ev).trace =
      [Effect.remoteCheckOffer, Effect.remoteFetchVouchers] ∧
    (handler env ev).store = env.existingState ∧
    (handler env ev).response.statusCode = 200 ∧
    (handler env ev).response.body.success = false ∧
    (handler env ev).response.body.action =
      some (if r = "OUT_OF_STOCK" then "out_of_stock" else "voucher_expired") := by
  rw [handler_stale env ev hev hc hg hstale]
  unfold claimPhase recoveryPhase fetchLatestCaffeNeroVoucher
  rcases hror with rfl | rfl
  · simp [ho, hf, hcc, hr, hfetch, hfound, vouchersToInfo, hexp]
  · simp [ho, hf, hcc, hr, hfetch, hfound, vouchersToInfo, hexp]

/-- Witness for C6: a MAX_CLAIMS_PER_PERIOD_REACHED refusal with a voucher
that expired at time 5 while the clock reads 10. -/
theorem c6_expired_recovery_discarded_witness :
    (stateStale envRecoveryExpired = true ∧
      envRecoveryExpired.offer.cannotClaimReason =
        some "MAX_CLAIMS_PER_PERIOD_REACHED" ∧
      findCaffeNeroVoucher envRecoveryExpired.rewards =
        some { code := "OLD9", barcodeValue := "888", expiresAt := some 5 } ∧
      (5 : Nat) ≤ envRecoveryExpired.now) ∧
    ((handler envRecoveryExpired "A-1").trace =
        [Effect.remoteCheckOffer, Effect.remoteFetchVouchers] ∧
      (handler envRecoveryExpired "A-1").store =
        envRecoveryExpired.existingState ∧
      (handler envRecoveryExpired "A-1").response.body.action =
        some "voucher_expired") :=
  ⟨⟨by decide, by decide, by decide, by decide⟩,
    let h := c6_expired_recovery_discarded envRecoveryExpired "A-1"
      "MAX_CLAIMS_PER_PERIOD_REACHED"
      { code := "OLD9", barcodeValue := "888", expiresAt := some 5 }
      (by decide) rfl rfl (by decide) rfl rfl rfl rfl (Or.inr rfl) rfl
      (by decide) (by decide)
    ⟨h.1, h.2.1, by simpa using h.2.2.2.2⟩⟩

/-! ## C10 -/

/-- C10: on a recovery run whose fetched voucher carries no expiry value,
the missing expiry is read as timestamp 0, so the voucher always counts as
expired and is discarded: no state write, no email attempt, store unchanged,
and the same out_of_stock / voucher_expired split as for an expired
voucher. -/
theorem c10_missing_expiry_discarded (env : Env) (ev r : String)
    (cv : ClaimedVoucher)
    (hev : ¬ ev = "") (hc : env.credsOk = true) (hg : env.getStateOk = true)
    (hstale : stateStale env = true) (ho : env.offerOk = true)
    (hf : env.offer.found = true) (hcc : env.offer.canClaim = false)
    (hr : env.offer.cannotClaimReason = some r)
    (hror : r = "OUT_OF_STOCK" ∨ r = "MAX_CLAIMS_PER_PERIOD_REACHED")
    (hfetch : env.fetchOk = true)
    (hfound : findCaffeNeroVoucher env.rewards = some cv)
    (hnoexp : cv.expiresAt = none) :
    (handler env ev).trace =
      [Effect.remoteCheckOffer, Effect.remoteFetchVouchers] ∧
    (handler env ev).store = env.existingState ∧
    (handler env ev).response.statusCode = 200 ∧
    (handler env ev).response.body.success = false ∧
    (handler env ev).response.body.action =
      some (if r = "OUT_OF_STOCK" then "out_of_stock" else "voucher_expired") :=
  c6_expired_recovery_discarded env ev r cv hev hc hg hstale ho hf hcc hr
    hror hfetch hfound (by simp [hnoexp])

/-- Witness for C10: a voucher with no expiry fetched at clock 0 is still
discarded. -/
theorem c10_missing_expiry_discarded_witness :
    (findCaffeNeroVoucher envRecoveryNoExpiry.rewards =
        some { code := "OLD9", barcodeValue := "888", expiresAt := none } ∧
      envRecoveryNoExpiry.now = 0) ∧
    ((handler envRecoveryNoExpiry "A-1").trace =
        [Effect.remoteCheckOffer, Effect.remoteFetchVouchers] ∧
      (handler envRecoveryNoExpiry "A-1").store =
        envRecoveryNoExpiry.existingState ∧
      (handler envRecoveryNoExpiry "A-1").response.body.action =
        some "voucher_expired") :=
  ⟨⟨by decide, by decide⟩,
    let h := c10_missing_expiry_discarded envRecoveryNoExpiry "A-1"
      "MAX_CLAIMS_PER_PERIOD_REACHED"
      { code := "OLD9", barcodeValue := "888", expiresAt := none }
      (by decide) rfl rfl (by decide) rfl rfl rfl rfl (Or.inr rfl) rfl
      (by decide) rfl
    ⟨h.1, h.2.1, by simpa using h.2.2.2.2⟩⟩

/-! ## Expiry arithmetic -/

/-- The computed expiry lies strictly after the input timestamp. -/
theorem getNextSundayMidnight_gt (fromMs : Nat) :
    fromMs < getNextSundayMidnight fromMs := by
  simp only [getNextSundayMidnight, msPerDay]
  split
  all_goals omega

/-- The computed expiry is a Sunday midnight. -/
theorem getNextSundayMidnight_sunday (fromMs : Nat) :
    isSundayMidnight (getNextSundayMidnight fromMs) := by
  simp only [getNextSundayMidnight, isSundayMidnight, msPerDay]
  split
  all_goals constructor
  all_goals omega

/-- The computed expiry is the least Sunday midnight strictly after the
input timestamp. -/
theorem getNextSundayMidnight_le (fromMs t : Nat)
    (h : isSundayMidnight t) (hgt : fromMs < t) :
    getNextSundayMidnight fromMs ≤ t := by
  obtain ⟨h1, h2⟩ := h
  simp only [msPerDay] at h1 h2
  simp only [getNextSundayMidnight, msPerDay]
  split
  all_goals omega

/-! ## C7 -/

/-- C7: every row built by `buildState` has `expiresAt` strictly greater
than `claimedAt`, and `expiresAt` is exactly the next Sunday 00:00 UTC after
the claim time: it is a Sunday midnight and no Sunday midnight lies strictly
between `claimedAt` and it. -/
theorem c7_expiry_next_sunday (acct : String) (v : VoucherInfo) (now : Nat) :
    (buildState now acct v).claimedAt < (buildState now acct v).expiresAt ∧
    isSundayMidnight (buildState now acct v).expiresAt ∧
    ∀ t, isSundayMidnight t → (buildState now acct v).claimedAt < t →
      (buildState now acct v).expiresAt ≤ t :=
  ⟨getNextSundayMidnight_gt now, getNextSundayMidnight_sunday now,
    fun t ht hgt => getNextSundayMidnight_le now t ht hgt⟩

/-- Witness for C7: claiming at epoch 0 (a Thursday) expires on Sunday
1970-01-04T00:00Z, i.e. 259200000 ms, the least Sunday midnight after 0. -/
theorem c7_expiry_next_sunday_witness :
    (buildState 0 "A-11111111"
        { code := "ABC123", barcode := "999888777", expiresAt := none
          accountNumber := "A-11111111" }).claimedAt <
      (buildState 0 "A-11111111"
        { code := "ABC123", barcode := "999888777", expiresAt := none
          accountNumber := "A-11111111" }).expiresAt ∧
    isSundayMidnight 259200000 ∧
    (buildState 0 "A-11111111"
        { code := "ABC123", barcode := "999888777", expiresAt := none
          accountNumber := "A-11111111" }).expiresAt ≤ 259200000 :=
  ⟨(c7_expiry_next_sunday "A-11111111"
      { code := "ABC123", barcode := "999888777", expiresAt := none
        accountNumber := "A-11111111" } 0).1,
    by constructor <;> decide,
    (c7_expiry_next_sunday "A-11111111"
      { code := "ABC123", barcode := "999888777", expiresAt := none
        accountNumber := "A-11111111" } 0).2.2 259200000
      (by constructor <;> decide) (by decide)⟩

/-! ## C8 -/

/-- The failing-write trace of the mark-sent helpers: one failed write of
the `emailSent = true` row and nothing else (in particular no send). -/
theorem runMark_fst_saveFail (env : Env) (v : VoucherInfo)
    (s : AccountState) (h : env.saveOk = false) :
    (runMark env v s).1 =
      [Effect.saveState { s with emailSent := true } false] := by
  unfold runMark markSentAndEmail markSentNoEmail
  repeat' split
  all_goals simp_all

/-- C8 counterexample: a fresh-claim run that obtained the voucher (claim
and fetch calls in the trace, write of the known voucher row attempted) but
whose state write fails reports an execution failure - 500 with
`success = false` - not a success-shaped outcome. -/
theorem c8_write_failure_counterexample :
    (handler { envOk with saveOk := false } "A-1").trace =
      [Effect.remoteCheckOffer, Effect.remoteClaim,
        Effect.remoteFetchVouchers, Effect.saveState stOk false] ∧
    (handler { envOk with saveOk := false } "A-1").response.statusCode = 500 ∧
    (handler { envOk with saveOk := false } "A-1").response.body.success =
      false ∧
    (handler { envOk with saveOk := false } "A-1").response.body.error =
      some "Failed to save account state" := by
  decide

/-- C8 amended: in every run that attempts a state write while the store is
failing, the write failure propagates: the response is 500 with
`success = false` and the save error message, the store is unchanged, and no
email is attempted. -/
theorem c8_amended_write_failure_is_500 (env : Env) (ev : String)
    (st : AccountState) (ok : Bool) (hsave : env.saveOk = false)
    (hw : Effect.saveState st ok ∈ (handler env ev).trace) :
    (handler env ev).response.statusCode = 500 ∧
    (handler env ev).response.body.success = false ∧
    (handler env ev).response.body.error =
      some "Failed to save account state" ∧
    (handler env ev).store = env.existingState ∧
    ∀ es v b, ¬ Effect.sendEmail es v b ∈ (handler env ev).trace := by
  obtain ⟨r, hr⟩ : ∃ r, handler env ev = r := ⟨_, rfl⟩
  rw [hr] at hw ⊢
  simp only [handler] at hr
  repeat' split at hr
  all_goals (try (subst hr; simp_all [errResponse, runMark_snd, runMark_fst_saveFail, claimCaffeNero_no_send, fetchLatest_no_send, claimCaffeNero_no_save, fetchLatest_no_save]; done))
  all_goals try simp only [claimPhase] at hr
  all_goals repeat' split at hr
  all_goals (try (subst hr; simp_all [errResponse, runMark_snd, runMark_fst_saveFail, claimCaffeNero_no_send, fetchLatest_no_send, claimCaffeNero_no_save, fetchLatest_no_save]; done))
  all_goals try simp only [recoveryPhase] at hr
  all_goals repeat' split at hr
  all_goals (subst hr; simp_all [errResponse, runMark_snd, runMark_fst_saveFail, claimCaffeNero_no_send, fetchLatest_no_send, claimCaffeNero_no_save, fetchLatest_no_save])

/-- Witness for C8's amended statement at the counterexample oracle. -/
theorem c8_amended_write_failure_is_500_witness :
    (({ envOk with saveOk := false } : Env).saveOk = false ∧
      Effect.saveState stOk false ∈
        (handler { envOk with saveOk := false } "A-1").trace) ∧
    ((handler { envOk with saveOk := false } "A-1").response.statusCode =
        500 ∧
      (handler { envOk with saveOk := false } "A-1").store =
        ({ envOk with saveOk := false } : Env).existingState) :=
  ⟨⟨rfl, by decide⟩,
    let h := c8_amended_write_failure_is_500 { envOk with saveOk := false }
      "A-1" stOk false rfl (by decide)
    ⟨h.1, h.2.2.2.1⟩⟩
